import Mathlib

/-!
Verification of the Lissajous pattern generator
(src/client/src/pages/lissajous.tsx).

The embedding models:
 - the curve sampler generateLissajousPoints (lines 62-75) over the reals,
   with Math.sin as Real.sin and Math.PI as Real.pi;
 - the pattern classifier getPatternInfo (lines 215-242) over natural
   numbers (the sliders only ever produce integer frequencies and phases);
 - the render tick (lines 175-203) as a function from the availability of
   the canvas and its 2d context, the display parameters, the sampled
   points, the current wall-clock time (in milliseconds, as a rational)
   and the FPS counter state to the successor state, a flag telling
   whether the next animation frame was requested, and the list of draw
   passes issued to the surface.
-/

namespace Lissajous

/-- Embedding of generateLissajousPoints: numPoints samples of the curve.
Arguments leftFreq, rightFreq, phaseDeg, animationSpeed mirror the React
state read by the callback; startTime mirrors startTimeRef.current and
now mirrors Date.now() (called once, before the loop). -/
noncomputable def generateLissajousPoints
    (leftFreq rightFreq phaseDeg animationSpeed : ℝ)
    (startTime now : ℝ) (numPoints : ℕ) : List (ℝ × ℝ) :=
  let timeStep : ℝ := 0.001 * animationSpeed
  let currentTime : ℝ := (now - startTime) * 0.001 * animationSpeed
  (List.range numPoints).map (fun (i : ℕ) =>
    let t : ℝ := currentTime + (i : ℝ) * timeStep
    (Real.sin (2 * Real.pi * rightFreq * t / 1000),
     Real.sin (2 * Real.pi * leftFreq * t / 1000 + phaseDeg * Real.pi / 180)))

/-- Result record of getPatternInfo. -/
structure PatternInfo where
  patternName : String
  symmetry : String
  period : ℕ
  deriving DecidableEq, Repr

/-- Embedding of the local gcd helper inside getPatternInfo:
gcd(a, b) = b == 0 ? a : gcd(b, a % b). -/
def gcdRec (a b : ℕ) : ℕ :=
  if h : b = 0 then a else gcdRec b (a % b)
termination_by b
decreasing_by exact Nat.mod_lt a (Nat.pos_of_ne_zero h)

/-- Embedding of getPatternInfo (lines 215-242). -/
def getPatternInfo (leftFreq rightFreq phaseDeg : ℕ) : PatternInfo :=
  let names : String × String :=
    if leftFreq = rightFreq then
      if phaseDeg = 90 ∨ phaseDeg = 270 then ("Circle", "Circular")
      else if phaseDeg = 0 ∨ phaseDeg = 180 then ("Line", "Linear")
      else ("Ellipse", "Elliptical")
    else if rightFreq = 2 * leftFreq ∨ leftFreq = 2 * rightFreq then
      ("Figure-8", "Figure-8")
    else ("Custom", "Complex")
  let divisor := gcdRec leftFreq rightFreq
  let leftRatio := leftFreq / divisor
  let rightRatio := rightFreq / divisor
  { patternName := names.1, symmetry := names.2,
    period := max leftRatio rightRatio }

/-- One draw pass issued to the presentation surface.  Each constructor
records the pass and the data it depends on. -/
inductive DrawOp where
  | clear (w h : ℝ)
  | grid (w h : ℝ)
  | axes (w h : ℝ)
  | trailStroke (pts : List (ℝ × ℝ))
  | marker (p : ℝ × ℝ)

/-- Curve-to-screen mapping used by drawPattern:
screenX = centerX + x * scale, screenY = centerY - y * scale, scale = 200. -/
noncomputable def toScreen (w h : ℝ) (p : ℝ × ℝ) : ℝ × ℝ :=
  (w / 2 + p.1 * 200, h / 2 - p.2 * 200)

/-- Embedding of drawGrid (lines 77-104): emits the grid pass unless
showGrid is off. -/
def drawGridOps (showGrid : Bool) (w h : ℝ) : List DrawOp :=
  if showGrid then [DrawOp.grid w h] else []

/-- Embedding of drawAxes (lines 106-126): emits the axes pass unless
showAxes is off. -/
def drawAxesOps (showAxes : Bool) (w h : ℝ) : List DrawOp :=
  if showAxes then [DrawOp.axes w h] else []

/-- Embedding of drawPattern (lines 128-173) applied to an already sampled
point list: if fewer than 2 points it draws nothing, otherwise it strokes
the whole trail and then draws the glow marker at the last point
(points[points.length - 1]). -/
noncomputable def drawPatternOps (w h : ℝ) (points : List (ℝ × ℝ)) : List DrawOp :=
  if points.length < 2 then []
  else [DrawOp.trailStroke (points.map (toScreen w h)),
        DrawOp.marker (toScreen w h (points.getD (points.length - 1) (0, 0)))]

/-- The draw passes of one successful render call, in source order:
clear, grid, axes, pattern (lines 184-190). -/
noncomputable def renderOps (showGrid showAxes : Bool) (w h : ℝ)
    (points : List (ℝ × ℝ)) : List DrawOp :=
  [DrawOp.clear w h] ++ drawGridOps showGrid w h ++ drawAxesOps showAxes w h
    ++ drawPatternOps w h points

/-- FPS counter state: frameCountRef, lastFPSUpdateRef (milliseconds) and
the published fps value. -/
structure FPSState where
  frameCount : ℕ
  lastFPSUpdate : ℚ
  fps : ℤ
  deriving DecidableEq

/-- Embedding of the render callback (lines 175-203).  canvasAvail models
canvasRef.current being non-null, ctxAvail models getContext(2d)
returning non-null.  Returns the FPS state after the tick, whether
requestAnimationFrame was called for a next tick, and the draw passes
issued.  The two early returns issue no draws, change no state and do not
re-arm the loop. -/
noncomputable def renderTick (canvasAvail ctxAvail : Bool)
    (showGrid showAxes : Bool) (w h : ℝ) (points : List (ℝ × ℝ))
    (now : ℚ) (s : FPSState) : FPSState × Bool × List DrawOp :=
  if canvasAvail = false then (s, false, [])
  else if ctxAvail = false then (s, false, [])
  else
    let ops := renderOps showGrid showAxes w h points
    let fc := s.frameCount + 1
    if now - s.lastFPSUpdate > 1000 then
      (⟨0, now, round ((fc : ℚ) * 1000 / (now - s.lastFPSUpdate))⟩, true, ops)
    else
      (⟨fc, s.lastFPSUpdate, s.fps⟩, true, ops)

theorem generateLissajousPoints_length
    (lf rf pd sp o n : ℝ) (c : ℕ) :
    (generateLissajousPoints lf rf pd sp o n c).length = c := by
  simp only [generateLissajousPoints, List.length_map, List.length_range]

theorem generateLissajousPoints_getElem?
    (lf rf pd sp o n : ℝ) (c i : ℕ) (h : i < c) :
    (generateLissajousPoints lf rf pd sp o n c)[i]? =
      some (Real.sin (2 * Real.pi * rf *
              ((n - o) * 0.001 * sp + (i : ℝ) * (0.001 * sp)) / 1000),
            Real.sin (2 * Real.pi * lf *
              ((n - o) * 0.001 * sp + (i : ℝ) * (0.001 * sp)) / 1000
              + pd * Real.pi / 180)) := by
  simp only [generateLissajousPoints, List.getElem?_map, List.getElem?_range h]
  rfl

theorem generateLissajousPoints_getD
    (lf rf pd sp o n : ℝ) (c i : ℕ) (h : i < c) :
    (generateLissajousPoints lf rf pd sp o n c).getD i (0, 0) =
      (Real.sin (2 * Real.pi * rf *
          ((n - o) * 0.001 * sp + (i : ℝ) * (0.001 * sp)) / 1000),
       Real.sin (2 * Real.pi * lf *
          ((n - o) * 0.001 * sp + (i : ℝ) * (0.001 * sp)) / 1000
          + pd * Real.pi / 180)) := by
  rw [List.getD_eq_getElem?_getD, generateLissajousPoints_getElem? lf rf pd sp o n c i h]
  rfl

/-- Claim C1: for every parameter set, origin time, current time and count,
point i of the sampler output (for i below count) equals
(sin(2 pi rightFrequency t / 1000),
 sin(2 pi leftFrequency t / 1000 + phaseOffsetDegrees pi / 180))
with t = elapsed + i timeStep, elapsed = (now - originTime) 0.001 speed and
timeStep = 0.001 speed. -/
theorem sampler_point_formula
    (lf rf pd sp o n : ℝ) (c i : ℕ) (h : i < c) :
    (generateLissajousPoints lf rf pd sp o n c)[i]? =
      some (Real.sin (2 * Real.pi * rf *
              ((n - o) * 0.001 * sp + (i : ℝ) * (0.001 * sp)) / 1000),
            Real.sin (2 * Real.pi * lf *
              ((n - o) * 0.001 * sp + (i : ℝ) * (0.001 * sp)) / 1000
              + pd * Real.pi / 180)) :=
  generateLissajousPoints_getElem? lf rf pd sp o n c i h

/-- Witness for C1 at leftFreq 1, rightFreq 1, phase 90, speed 1,
origin 0, now 0, count 1, index 0. -/
theorem sampler_point_formula_witness :
    0 < 1 ∧
    (generateLissajousPoints 1 1 90 1 0 0 1)[0]? =
      some (Real.sin (2 * Real.pi * 1 *
              (((0 : ℝ) - 0) * 0.001 * 1 + ((0 : ℕ) : ℝ) * (0.001 * 1)) / 1000),
            Real.sin (2 * Real.pi * 1 *
              (((0 : ℝ) - 0) * 0.001 * 1 + ((0 : ℕ) : ℝ) * (0.001 * 1)) / 1000
              + 90 * Real.pi / 180)) :=
  ⟨Nat.zero_lt_one, sampler_point_formula 1 1 90 1 0 0 1 0 Nat.zero_lt_one⟩

/-- Claim C2: the sampler is deterministic and frame-history-free: two
calls with equal frequencies, phase, speed multiplier, origin time,
current time and count return identical point sequences; the embedding is
a pure function of exactly these arguments, so the output depends on no
other state and in particular not on any previous frame. -/
theorem sampler_deterministic
    (lf rf pd sp o n : ℝ) (c : ℕ) (lf2 rf2 pd2 sp2 o2 n2 : ℝ) (c2 : ℕ)
    (hlf : lf = lf2) (hrf : rf = rf2) (hpd : pd = pd2) (hsp : sp = sp2)
    (ho : o = o2) (hn : n = n2) (hc : c = c2) :
    generateLissajousPoints lf rf pd sp o n c =
      generateLissajousPoints lf2 rf2 pd2 sp2 o2 n2 c2 := by
  subst hlf hrf hpd hsp ho hn hc
  rfl

/-- Witness for C2 at two syntactically equal calls. -/
theorem sampler_deterministic_witness :
    generateLissajousPoints 1000 1000 90 1 0 5 8192 =
      generateLissajousPoints 1000 1000 90 1 0 5 8192 :=
  sampler_deterministic 1000 1000 90 1 0 5 8192 1000 1000 90 1 0 5 8192
    rfl rfl rfl rfl rfl rfl rfl

/-- Claim C3: for every count and every parameter set, origin time and
current time, the sampler returns a sequence of exactly count points. -/
theorem sampler_length (lf rf pd sp o n : ℝ) (c : ℕ) :
    (generateLissajousPoints lf rf pd sp o n c).length = c :=
  generateLissajousPoints_length lf rf pd sp o n c

/-- Claim C4: for every real-valued frequency, phase, speed and time
inputs and every count, both coordinates of every emitted point (read at
any index below count) lie in the closed interval from -1 to 1. -/
theorem sampler_range_bound
    (lf rf pd sp o n : ℝ) (c i : ℕ) (h : i < c) :
    ((generateLissajousPoints lf rf pd sp o n c).getD i (0, 0)).1 ∈
        Set.Icc (-1 : ℝ) 1 ∧
    ((generateLissajousPoints lf rf pd sp o n c).getD i (0, 0)).2 ∈
        Set.Icc (-1 : ℝ) 1 := by
  rw [generateLissajousPoints_getD lf rf pd sp o n c i h]
  exact ⟨Set.mem_Icc.mpr ⟨Real.neg_one_le_sin _, Real.sin_le_one _⟩,
         Set.mem_Icc.mpr ⟨Real.neg_one_le_sin _, Real.sin_le_one _⟩⟩

/-- Witness for C4 at leftFreq 3, rightFreq 7, phase 45, speed 2,
origin 0, now 1000, count 1, index 0. -/
theorem sampler_range_bound_witness :
    0 < 1 ∧
    (((generateLissajousPoints 3 7 45 2 0 1000 1).getD 0 (0, 0)).1 ∈
        Set.Icc (-1 : ℝ) 1 ∧
     ((generateLissajousPoints 3 7 45 2 0 1000 1).getD 0 (0, 0)).2 ∈
        Set.Icc (-1 : ℝ) 1) :=
  ⟨Nat.zero_lt_one, sampler_range_bound 3 7 45 2 0 1000 1 0 Nat.zero_lt_one⟩

/-- Claim C5: with otherwise identical inputs, the sampler called with
phase p + 360 and with phase p produce identical sequences of y
coordinates, by periodicity of the sine. -/
theorem sampler_phase_wrap (lf rf pd sp o n : ℝ) (c : ℕ) :
    (generateLissajousPoints lf rf (pd + 360) sp o n c).map Prod.snd =
      (generateLissajousPoints lf rf pd sp o n c).map Prod.snd := by
  simp only [generateLissajousPoints, List.map_map]
  refine List.map_congr_left fun i _ => ?_
  show Real.sin (2 * Real.pi * lf *
        ((n - o) * 0.001 * sp + (i : ℝ) * (0.001 * sp)) / 1000
        + (pd + 360) * Real.pi / 180)
     = Real.sin (2 * Real.pi * lf *
        ((n - o) * 0.001 * sp + (i : ℝ) * (0.001 * sp)) / 1000
        + pd * Real.pi / 180)
  rw [show 2 * Real.pi * lf *
        ((n - o) * 0.001 * sp + (i : ℝ) * (0.001 * sp)) / 1000
        + (pd + 360) * Real.pi / 180
      = (2 * Real.pi * lf *
        ((n - o) * 0.001 * sp + (i : ℝ) * (0.001 * sp)) / 1000
        + pd * Real.pi / 180) + 2 * Real.pi by ring,
    Real.sin_add_two_pi]

theorem getPatternInfo_names_eq (f p : ℕ) :
    (getPatternInfo f f p).patternName =
      (if p = 90 ∨ p = 270 then "Circle"
       else if p = 0 ∨ p = 180 then "Line" else "Ellipse") ∧
    (getPatternInfo f f p).symmetry =
      (if p = 90 ∨ p = 270 then "Circular"
       else if p = 0 ∨ p = 180 then "Linear" else "Elliptical") := by
  simp only [getPatternInfo, if_pos rfl]
  constructor <;> split_ifs <;> rfl

/-- Claim C6: the pattern classifier maps (1000, 1000, 90) to Circle with
Circular symmetry, (1000, 1000, 0) to Line with Linear symmetry, and
(1000, 2000, 0) to Figure-8 with Figure-8 symmetry. -/
theorem pattern_classification :
    (getPatternInfo 1000 1000 90).patternName = "Circle" ∧
    (getPatternInfo 1000 1000 90).symmetry = "Circular" ∧
    (getPatternInfo 1000 1000 0).patternName = "Line" ∧
    (getPatternInfo 1000 1000 0).symmetry = "Linear" ∧
    (getPatternInfo 1000 2000 0).patternName = "Figure-8" ∧
    (getPatternInfo 1000 2000 0).symmetry = "Figure-8" :=
  ⟨rfl, rfl, rfl, rfl, rfl, rfl⟩

/-- Claim C10: the classifier is not invariant under adding 360 to the
phase: for equal frequencies it maps phase 360 to Ellipse with Elliptical
symmetry while it maps the equivalent phase 0 to Line with Linear
symmetry, and exactly the phase values 0, 90, 180, 270 select the Line or
Circle classifications. -/
theorem pattern_phase_not_wrap_invariant :
    (∀ f : ℕ, (getPatternInfo f f 360).patternName = "Ellipse" ∧
              (getPatternInfo f f 360).symmetry = "Elliptical") ∧
    (∀ f : ℕ, (getPatternInfo f f 0).patternName = "Line" ∧
              (getPatternInfo f f 0).symmetry = "Linear") ∧
    (∀ f p : ℕ, ((getPatternInfo f f p).patternName = "Circle" ∨
                 (getPatternInfo f f p).patternName = "Line") ↔
                (p = 0 ∨ p = 90 ∨ p = 180 ∨ p = 270)) := by
  refine ⟨fun f => ?_, fun f => ?_, fun f p => ?_⟩
  · rcases getPatternInfo_names_eq f 360 with ⟨hn, hs⟩
    rw [hn, hs]
    constructor <;> rfl
  · rcases getPatternInfo_names_eq f 0 with ⟨hn, hs⟩
    rw [hn, hs]
    constructor <;> rfl
  · rw [(getPatternInfo_names_eq f p).1]
    by_cases h1 : p = 90 ∨ p = 270
    · rw [if_pos h1]
      constructor
      · intro _
        rcases h1 with rfl | rfl
        · exact Or.inr (Or.inl rfl)
        · exact Or.inr (Or.inr (Or.inr rfl))
      · intro _
        exact Or.inl rfl
    · rw [if_neg h1]
      by_cases h2 : p = 0 ∨ p = 180
      · rw [if_pos h2]
        constructor
        · intro _
          rcases h2 with rfl | rfl
          · exact Or.inl rfl
          · exact Or.inr (Or.inr (Or.inl rfl))
        · intro _
          exact Or.inr rfl
      · rw [if_neg h2]
        constructor
        · rintro (he | he) <;> exact absurd he (by decide)
        · rintro (rfl | rfl | rfl | rfl)
          · exact absurd (Or.inl rfl) h2
          · exact absurd (Or.inl rfl) h1
          · exact absurd (Or.inr rfl) h2
          · exact absurd (Or.inr rfl) h1

/-- Amended claim C7: when the presentation surface or its drawing
context is unavailable at a tick, the tick aborts without error, issuing
no draw passes and leaving the FPS state unchanged, but it does not
request a next animation frame: the scheduler loop stops instead of
retrying at the next refresh opportunity. -/
theorem tick_unavailable_no_reschedule
    (canvasAvail ctxAvail sg sa : Bool) (w h : ℝ) (pts : List (ℝ × ℝ))
    (now : ℚ) (s : FPSState)
    (hun : canvasAvail = false ∨ ctxAvail = false) :
    renderTick canvasAvail ctxAvail sg sa w h pts now s = (s, false, []) := by
  rcases hun with rfl | rfl
  · rfl
  · cases canvasAvail <;> rfl

/-- Witness for the amended C7: canvas missing at a concrete tick. -/
theorem tick_unavailable_no_reschedule_witness :
    (false = false ∨ true = false) ∧
    renderTick false true true true 500 500 [] 0 ⟨0, 0, 60⟩ =
      (⟨0, 0, 60⟩, false, []) :=
  ⟨Or.inl rfl,
   tick_unavailable_no_reschedule false true true true 500 500 [] 0 ⟨0, 0, 60⟩
     (Or.inl rfl)⟩

/-- Counterexample to C7 as stated: at a tick where the canvas is
unavailable, the render callback returns before reaching the
requestAnimationFrame call, so no next tick is scheduled. -/
theorem tick_unavailable_reschedules_false :
    (renderTick false true true true 500 500 [] 0 ⟨0, 0, 60⟩).2.1 = false :=
  rfl

/-- Claim C8: on a tick with the surface available, the frame-rate
counter publishes a new value exactly when now - lastReportTime exceeds
1000 ms; the published value is round(frameCount 1000 / (now -
lastReportTime)) where frameCount counts the frames of the window
including the current tick, and publishing resets the counter to 0 and
the report time to now; on all other ticks the published value and the
report time are unchanged and the counter increases by 1. -/
theorem fps_reporting (sg sa : Bool) (w h : ℝ) (pts : List (ℝ × ℝ))
    (now : ℚ) (s : FPSState) :
    (now - s.lastFPSUpdate > 1000 →
        (renderTick true true sg sa w h pts now s).1 =
          ⟨0, now, round (((s.frameCount + 1 : ℕ) : ℚ) * 1000 /
            (now - s.lastFPSUpdate))⟩) ∧
    (¬ now - s.lastFPSUpdate > 1000 →
        (renderTick true true sg sa w h pts now s).1 =
          ⟨s.frameCount + 1, s.lastFPSUpdate, s.fps⟩) := by
  constructor <;> intro hcmp <;> simp [renderTick, hcmp]

/-- Witness for C8: a publishing tick, 5 frames already counted, window
of 2000 ms. -/
theorem fps_reporting_witness :
    ((2000 : ℚ) - (⟨5, 0, 60⟩ : FPSState).lastFPSUpdate > 1000) ∧
    (renderTick true true true true 500 500 [] 2000 ⟨5, 0, 60⟩).1 =
      ⟨0, 2000, round ((((⟨5, 0, 60⟩ : FPSState).frameCount + 1 : ℕ) : ℚ) * 1000 /
        ((2000 : ℚ) - (⟨5, 0, 60⟩ : FPSState).lastFPSUpdate))⟩ :=
  ⟨by norm_num,
   (fps_reporting true true 500 500 [] 2000 ⟨5, 0, 60⟩).1 (by norm_num)⟩

/-- Claim C9: rendering with an empty point sequence or a single point
does not fail: the trail and leading-marker passes are skipped as no-ops
while the clear pass and, when enabled, the grid and axes passes are
still performed. -/
theorem render_noop_safety (sg sa : Bool) (w h : ℝ) (pt : ℝ × ℝ) :
    renderOps sg sa w h [] =
      [DrawOp.clear w h] ++ drawGridOps sg w h ++ drawAxesOps sa w h ∧
    renderOps sg sa w h [pt] =
      [DrawOp.clear w h] ++ drawGridOps sg w h ++ drawAxesOps sa w h := by
  constructor <;> simp [renderOps, drawPatternOps]

end Lissajous
